import Mathlib

/-!
Shallow embedding of the GPU telemetry sampling engine of the Rust-Monitor
repository (src/src/app.rs and src/src/macos_gpu.rs), together with proofs
about the properties its specification states.

Conventions of the embedding:
* Rust `u32`/`u64` values are modelled as `Nat`; `i64` values as `Int`.
  Where the source performs a narrowing `as u32` cast on a value that may
  exceed the range, the model applies `% 2^32` explicitly.
* `f64` arithmetic in `parse_delta` (`(busy as f64 / total as f64) * 100.0`
  followed by a saturating `as u32` cast) is modelled with exact integer
  arithmetic: truncation toward zero of `busy*100/total` (`Int.div`), with
  the saturating cast's negative clamp given by `Int.toNat`.
* Fallible reads (`Result`/file reads/parses) are modelled as `Option`.
* History buffers (`VecDeque<f64>`) are modelled as `List ℚ`, newest at the
  tail; `pop_front` + `push_back` becomes `List.drop 1 ++ [v]`.
-/

/-- `listStarts p l` is Rust `str::starts_with` on character lists:
`true` iff `p` is an initial segment of `l`. -/
def listStarts : List Char → List Char → Bool
  | [], _ => true
  | _ :: _, [] => false
  | p :: ps, c :: cs => p == c && listStarts ps cs

/-- `listHasSub p l`: `p` occurs as a contiguous run somewhere in `l`
(Rust `str::contains` with a string pattern). -/
def listHasSub (p : List Char) : List Char → Bool
  | [] => listStarts p []
  | c :: cs => listStarts p (c :: cs) || listHasSub p cs

/-- Rust `s.starts_with(pat)`. -/
def strStarts (s pat : String) : Bool := listStarts pat.toList s.toList

/-- Rust `s.contains(pat)` for a string pattern. -/
def strContains (s pat : String) : Bool := listHasSub pat.toList s.toList

/-- Rust `v as u32` on an `i64` value: the low 32 bits. -/
def toU32 (v : Int) : Nat := (v % 4294967296).toNat

-- ─── macos_gpu.rs: IOReport delta parsing ───────────────────────────────

/-- An IOReport channel record of the delta dictionary: group, subgroup and
channel name strings plus the `IOReportSimpleGetIntegerValue` result. -/
structure Channel where
  group : String
  subgroup : String
  name : String
  value : Int
deriving Repr, DecidableEq

/-- Metrics returned from a single sample delta (`AppleGpuMetrics`). -/
structure AppleGpuMetrics where
  gpu_name : String
  utilization : Nat
  temperature : Nat
  power_mw : Option Nat
  freq_mhz : Option Nat
deriving Repr, DecidableEq

/-- The mutable accumulators of `AppleGpuSampler::parse_delta`'s loop. -/
structure DeltaAcc where
  gpu_name : String
  gpu_busy : Int
  gpu_total : Int
  power_mw : Option Nat
  freq_mhz : Option Nat
deriving Repr, DecidableEq

/-- Accumulator values before the channel loop of `parse_delta`. -/
def initAcc : DeltaAcc :=
  { gpu_name := "Apple GPU", gpu_busy := 0, gpu_total := 0,
    power_mw := none, freq_mhz := none }

/-- The busy/active name heuristic of `parse_delta`:
`name.contains("Busy") || name.contains("active")`. -/
def busyHeuristic (name : String) : Bool :=
  strContains name "Busy" || strContains name "active"

/-- First block of the loop body: channels with group `"GPU"` and subgroup
`"GPU Activity"` add their value to `gpu_total`, and additionally to
`gpu_busy` when the busy/active heuristic matches the name. -/
def stepActivity (acc : DeltaAcc) (c : Channel) : DeltaAcc :=
  if c.group == "GPU" && c.subgroup == "GPU Activity" then
    { acc with
      gpu_busy := if busyHeuristic c.name then acc.gpu_busy + c.value else acc.gpu_busy,
      gpu_total := acc.gpu_total + c.value }
  else acc

/-- Second block: group `"GPU"` channels whose name contains `"Core Clock"`
set `freq_mhz` when the value is positive. -/
def stepFreq (acc : DeltaAcc) (c : Channel) : DeltaAcc :=
  if c.group == "GPU" && strContains c.name "Core Clock" then
    (if 0 < c.value then { acc with freq_mhz := some (toU32 c.value) } else acc)
  else acc

/-- Third block: group `"Energy Model"` channels whose name contains `"GPU"`
set `power_mw` when the value is positive (each match overwrites). -/
def stepPower (acc : DeltaAcc) (c : Channel) : DeltaAcc :=
  if c.group == "Energy Model" && strContains c.name "GPU" then
    (if 0 < c.value then { acc with power_mw := some (toU32 c.value) } else acc)
  else acc

/-- Fourth block: a group `"GPU"` channel whose name begins with `"Apple"` or
`"M"` replaces the default `"Apple GPU"` name, first such channel wins. -/
def stepName (acc : DeltaAcc) (c : Channel) : DeltaAcc :=
  if c.group == "GPU" && acc.gpu_name == "Apple GPU" && !(c.name == "")
      && (strStarts c.name "Apple" || strStarts c.name "M") then
    { acc with gpu_name := c.name }
  else acc

/-- One iteration of the channel loop of `parse_delta`, the four blocks in
source order. -/
def stepChannel (acc : DeltaAcc) (c : Channel) : DeltaAcc :=
  stepName (stepPower (stepFreq (stepActivity acc c) c) c) c

/-- The utilization computation at the end of `parse_delta`:
`if gpu_total > 0 { ((gpu_busy as f64 / gpu_total as f64) * 100.0) as u32 }
else { 0 }` followed by `.min(100)`, with the float arithmetic modelled
exactly (truncation toward zero, saturating at 0). -/
def utilizationOf (busy total : Int) : Nat :=
  min (if 0 < total then ((busy * 100).tdiv total).toNat else 0) 100

/-- `AppleGpuSampler::parse_delta` applied to the channel array of the delta
dictionary. Temperature is 0 here; the caller fills it in. -/
def parseDeltaList (chans : List Channel) : AppleGpuMetrics :=
  let acc := chans.foldl stepChannel initAcc
  { gpu_name := acc.gpu_name
    utilization := utilizationOf acc.gpu_busy acc.gpu_total
    temperature := 0
    power_mw := acc.power_mw
    freq_mhz := acc.freq_mhz }

/-- `AppleGpuSampler::parse_delta` including the early return when the
`"IOReportChannels"` array is absent (`none`). -/
def parse_delta (d : Option (List Channel)) : AppleGpuMetrics :=
  match d with
  | none =>
    { gpu_name := "Apple GPU", utilization := 0, temperature := 0,
      power_mw := none, freq_mhz := none }
  | some chans => parseDeltaList chans

-- ─── macos_gpu.rs: sample() state machine ───────────────────────────────

/-- `AppleGpuSampler::sample`, one call, as a pure state transition.
`σ` stands for the opaque `CFDictionaryRef` snapshot taken by
`IOReportCreateSamples`; `current = none` models a null snapshot (early
return). `createDelta` models `IOReportCreateSamplesDelta` followed by the
`"IOReportChannels"` lookup: `none` is a null delta dictionary, and the
inner `Option (List Channel)` is the possibly-absent channel array.
`temp` is the `read_gpu_temperature().unwrap_or(0)` result.
Returns the new `prev_sample` field and the optional metrics. -/
def sampleStep {σ : Type} (createDelta : σ → σ → Option (Option (List Channel)))
    (temp : Nat) (prev : Option σ) (current : Option σ) :
    Option σ × Option AppleGpuMetrics :=
  match current with
  | none => (prev, none)
  | some cur =>
    let result : Option AppleGpuMetrics :=
      match prev with
      | some p => (createDelta p cur).map parse_delta
      | none => none
    (some cur, result.map (fun m => { m with temperature := temp }))

-- ─── macos_gpu.rs: read_gpu_temperature ─────────────────────────────────

/-- The per-registry-entry conversion of `read_gpu_temperature`: a raw
`temperature` property `t` gives `t / 100` when `t > 1000` else `t`, and is
accepted only when the result lies strictly between 0 and 150. -/
def convertIoTemp (t : Int) : Option Nat :=
  let degrees := if 1000 < t then t.tdiv 100 else t
  if 0 < degrees ∧ degrees < 150 then some degrees.toNat else none

/-- `read_gpu_temperature`'s iterator loop over the matched registry
entries: each entry's optional `temperature` property is converted, and the
loop stops at the first accepted value. -/
def read_gpu_temperature : List (Option Int) → Option Nat
  | [] => none
  | e :: rest =>
    match e.bind convertIoTemp with
    | some t => some t
    | none => read_gpu_temperature rest

-- ─── app.rs: data model ─────────────────────────────────────────────────

/-- `GpuInfo` from app.rs: one device entry of the tick's GPU list. -/
structure GpuInfo where
  name : String
  temperature : Nat
  utilization : Nat
  memory_used : Nat
  memory_total : Nat
  fan_speed : Option Nat
  power_usage : Option Nat
  power_limit : Option Nat
deriving Repr, DecidableEq

/-- The per-index query results of the NVML backend for one device: each
field is `none` when the corresponding query failed. -/
structure NvmlDevice where
  name : Option String
  temperature : Option Nat
  utilization : Option Nat
  memory : Option (Nat × Nat)
  fan_speed : Option Nat
  power_usage : Option Nat
  power_limit : Option Nat
deriving Repr, DecidableEq

/-- The `GpuInfo` pushed by `App::update_gpu` for one NVML device: every
failed per-field query takes its documented default. -/
def nvmlDeviceToGpu (d : NvmlDevice) : GpuInfo :=
  { name := d.name.getD "Unknown GPU"
    temperature := d.temperature.getD 0
    utilization := d.utilization.getD 0
    memory_used := (d.memory.map Prod.fst).getD 0
    memory_total := (d.memory.map Prod.snd).getD 0
    fan_speed := d.fan_speed
    power_usage := d.power_usage
    power_limit := d.power_limit }

/-- The GPU-related mutable state of `App`: the device list `gpus` and the
per-GPU utilization history `gpu_util_history`. -/
structure GpuState where
  gpus : List GpuInfo
  hist : List (List ℚ)
deriving Repr, DecidableEq

/-- `VecDeque::pop_front` followed by `push_back v` on a history buffer:
the oldest (head) element is evicted and `v` appended at the tail. -/
def pushHist (b : List ℚ) (v : ℚ) : List ℚ := b.drop 1 ++ [v]

/-- The history-buffer update idiom of `App::update_gpu`,
`App::detect_linux_gpu` and `App::detect_macos_gpu`: grow
`gpu_util_history` with fresh buffers (60 zeros) while its length is at
most the target index, then pop/push the buffer at that index. -/
def histUpdate : List (List ℚ) → Nat → ℚ → List (List ℚ)
  | [], 0, v => [pushHist (List.replicate 60 0) v]
  | [], i + 1, v => List.replicate 60 0 :: histUpdate [] i v
  | b :: bs, 0, v => pushHist b v :: bs
  | b :: bs, i + 1, v => b :: histUpdate bs i v

-- ─── app.rs: NVML (counter) backend path of update_gpu ──────────────────

/-- The NVML device loop of `App::update_gpu`: index `i` counts all indices
(a failed `device_by_index` is skipped but still advances the index used
for the history buffer). -/
def nvmlLoop : List (Option NvmlDevice) → Nat → GpuState → GpuState
  | [], _, st => st
  | none :: rest, i, st => nvmlLoop rest (i + 1) st
  | some d :: rest, i, st =>
    nvmlLoop rest (i + 1)
      { gpus := st.gpus ++ [nvmlDeviceToGpu d],
        hist := histUpdate st.hist i ((d.utilization.getD 0 : ℚ)) }

/-- The whole NVML branch of `App::update_gpu` when the NVML handle exists
and `device_count` succeeded: `gpus` is cleared, then each index's device
is fetched and pushed. -/
def nvmlTick (devs : List (Option NvmlDevice)) (st : GpuState) : GpuState :=
  nvmlLoop devs 0 { st with gpus := [] }

-- ─── app.rs: sysfs scrape backend (detect_linux_gpu) ────────────────────

/-- One `/sys/class/drm` directory entry together with the per-field read
results the scrape performs on it. `pci_slot` is the slot extracted from
`uevent` (domain stripped); each `Option` field is `none` when the file is
missing or unparsable; `temp1_input` and `power1_average` are the first
successful reads of the hwmon subdirectory scan. -/
structure DrmEntry where
  name_str : String
  hasDevice : Bool
  pci_slot : Option String
  gpu_busy_percent : Option Nat
  mem_info_vram_used : Option Nat
  mem_info_vram_total : Option Nat
  temp1_input : Option Nat
  power1_average : Option Nat
deriving Repr, DecidableEq

/-- Name resolution of `detect_linux_gpu`: look the PCI slot up in the
lspci slot→product map, else synthesize `"GPU (<dir>)"`. -/
def resolveName (gpu_names : List (String × String)) (e : DrmEntry) : String :=
  match e.pci_slot.bind
      (fun slot => (gpu_names.find? (fun p => p.1 == slot)).map Prod.snd) with
  | some n => n
  | none => "GPU (" ++ e.name_str ++ ")"

/-- The `GpuInfo` built by `detect_linux_gpu` for one scraped device:
utilization is the parsed `gpu_busy_percent` (default 0), VRAM fields
default to 0, the hwmon temperature is millidegrees divided by 1000
(default 0), the hwmon power is microwatts divided by 1000 cast to u32. -/
def scrapeDevice (gpu_names : List (String × String)) (e : DrmEntry) : GpuInfo :=
  { name := resolveName gpu_names e
    temperature := (e.temp1_input.map (· / 1000)).getD 0
    utilization := e.gpu_busy_percent.getD 0
    memory_used := e.mem_info_vram_used.getD 0
    memory_total := e.mem_info_vram_total.getD 0
    fan_speed := none
    power_usage := e.power1_average.map (fun uw => (uw / 1000) % 4294967296)
    power_limit := none }

/-- The filters at the top of the `detect_linux_gpu` loop body: only
`card*` directories without a connector dash and with a `device` subdir. -/
def entryOk (e : DrmEntry) : Bool :=
  strStarts e.name_str "card" && !(e.name_str.toList.contains '-') && e.hasDevice

/-- One iteration of the `detect_linux_gpu` entry loop: filtered entries
are scraped, and the device is appended (with a history push at its new
index) only when no existing entry has the same resolved name. -/
def linuxStep (gpu_names : List (String × String)) (st : GpuState) (e : DrmEntry) :
    GpuState :=
  if entryOk e then
    let g := scrapeDevice gpu_names e
    if st.gpus.any (fun x => x.name == g.name) then st
    else
      { gpus := st.gpus ++ [g],
        hist := histUpdate st.hist st.gpus.length ((g.utilization : ℚ)) }
  else st

/-- `App::detect_linux_gpu`: a no-op when `/sys/class/drm` is absent, else
the fold of `linuxStep` over the directory entries. The lspci invocation is
abstracted by the `gpu_names` slot→product list it produces. -/
def detect_linux_gpu (drmExists : Bool) (gpu_names : List (String × String))
    (entries : List DrmEntry) (st : GpuState) : GpuState :=
  if drmExists then entries.foldl (linuxStep gpu_names) st else st

-- ─── app.rs: macOS fallback (detect_macos_gpu) ──────────────────────────

/-- `App::detect_macos_gpu`. `metrics` is the `sampler.sample()` result
(`none` when the sampler is absent or returned nothing); `profilerName` is
`get_apple_gpu_name()`. With metrics, `gpus` is replaced by the single
Apple entry and history index 0 is pushed; without, the profiler name is
appended if new, with no history update. -/
def detect_macos_gpu (metrics : Option AppleGpuMetrics) (profilerName : String)
    (st : GpuState) : GpuState :=
  match metrics with
  | some m =>
    let gpu_name := if m.gpu_name == "Apple GPU" then profilerName else m.gpu_name
    { gpus := [{ name := gpu_name, temperature := m.temperature,
                 utilization := m.utilization, memory_used := 0, memory_total := 0,
                 fan_speed := none, power_usage := m.power_mw, power_limit := none }],
      hist := histUpdate st.hist 0 ((m.utilization : ℚ)) }
  | none =>
    if st.gpus.any (fun g => g.name == profilerName) then st
    else
      { st with
        gpus := st.gpus ++ [{ name := profilerName, temperature := 0,
                              utilization := 0, memory_used := 0, memory_total := 0,
                              fan_speed := none, power_usage := none,
                              power_limit := none }] }

-- ─── app.rs: backend selection (update_gpu) ─────────────────────────────

/-- The per-tick inputs of the platform-specific fallback path chosen by
`App::detect_platform_gpu`'s cfg dispatch. -/
inductive PlatformInput where
  | linux (drmExists : Bool) (gpu_names : List (String × String))
      (entries : List DrmEntry)
  | macos (metrics : Option AppleGpuMetrics) (profilerName : String)
  | windows
deriving Repr

/-- `App::detect_platform_gpu`. -/
def detect_platform_gpu (p : PlatformInput) (st : GpuState) : GpuState :=
  match p with
  | .linux d n e => detect_linux_gpu d n e st
  | .macos m pn => detect_macos_gpu m pn st
  | .windows => st

/-- `App::update_gpu`. `nvmlEnum` is `some devs` when the NVML handle
exists and `device_count()` succeeded (`devs` lists each index's
`device_by_index` result), `none` otherwise. The returned flag records
whether the platform fallback was invoked this tick. -/
def update_gpu (nvmlEnum : Option (List (Option NvmlDevice)))
    (p : PlatformInput) (st : GpuState) : GpuState × Bool :=
  match nvmlEnum with
  | some devs =>
    let st1 := nvmlTick devs st
    if st1.gpus.isEmpty then (detect_platform_gpu p st1, true) else (st1, false)
  | none => (detect_platform_gpu p st, true)

-- ─── app.rs: update_stats and the tick loop ─────────────────────────────

/-- The per-core loop of `App::update_stats`: index `i`'s buffer is
pop/pushed with the i-th reported usage, for indices below both lengths;
buffers beyond the reported cores are untouched. -/
def updateCpuHists : List (List ℚ) → List ℚ → List (List ℚ)
  | [], _ => []
  | bs, [] => bs
  | b :: bs, v :: vs => pushHist b v :: updateCpuHists bs vs

/-- The history-relevant state of `App`. -/
structure AppState where
  cpu_history : List (List ℚ)
  global_cpu_history : List ℚ
  mem_history : List ℚ
  net_rx_history : List ℚ
  net_tx_history : List ℚ
  gpu : GpuState
deriving Repr

/-- Environment data consumed by one `App::update_stats` call. -/
structure TickInput where
  global_cpu : ℚ
  per_cpu : List ℚ
  mem_pct : ℚ
  rx_kb : ℚ
  tx_kb : ℚ
  nvmlEnum : Option (List (Option NvmlDevice))
  platform : PlatformInput

/-- `App::update_stats`: every history buffer is pop/pushed with this
tick's value, then `update_gpu` runs. -/
def update_stats (inp : TickInput) (st : AppState) : AppState :=
  { cpu_history := updateCpuHists st.cpu_history inp.per_cpu
    global_cpu_history := pushHist st.global_cpu_history inp.global_cpu
    mem_history := pushHist st.mem_history inp.mem_pct
    net_rx_history := pushHist st.net_rx_history inp.rx_kb
    net_tx_history := pushHist st.net_tx_history inp.tx_kb
    gpu := (update_gpu inp.nvmlEnum inp.platform st.gpu).1 }

/-- The history fields of `App::new` before the first `update_stats` call:
every buffer pre-filled with 60 zeros, no GPU buffers yet. -/
def App.new (cpu_count : Nat) : AppState :=
  { cpu_history := List.replicate cpu_count (List.replicate 60 0)
    global_cpu_history := List.replicate 60 0
    mem_history := List.replicate 60 0
    net_rx_history := List.replicate 60 0
    net_tx_history := List.replicate 60 0
    gpu := { gpus := [], hist := [] } }

/-- A sequence of ticks: `update_stats` folded over the inputs. -/
def runTicks (inputs : List TickInput) (st : AppState) : AppState :=
  inputs.foldl (fun s i => update_stats i s) st

/-- The buffer-length invariant: every history buffer of the state has
length exactly 60. -/
def buffersOk (st : AppState) : Prop :=
  (∀ b ∈ st.cpu_history, b.length = 60) ∧
  st.global_cpu_history.length = 60 ∧
  st.mem_history.length = 60 ∧
  st.net_rx_history.length = 60 ∧
  st.net_tx_history.length = 60 ∧
  (∀ b ∈ st.gpu.hist, b.length = 60)

-- ─── Derived predicates and spec-side comparators ───────────────────────

/-- A channel counted into `gpu_total`: group `"GPU"`, subgroup
`"GPU Activity"`. -/
def isActivity (c : Channel) : Bool :=
  c.group == "GPU" && c.subgroup == "GPU Activity"

/-- Sum of the delta values of all GPU-activity channels. -/
def activityTotal (chans : List Channel) : Int :=
  ((chans.filter isActivity).map Channel.value).sum

/-- Sum of the delta values of the GPU-activity channels whose name matches
the busy/active heuristic. -/
def activityBusy (chans : List Channel) : Int :=
  ((chans.filter (fun c => isActivity c && busyHeuristic c.name)).map Channel.value).sum

/-- The spec's utilization formula, stated in its own words:
`utilization = total>0 ? clamp(busy/total*100, 0, 100) : 0`, read over the
integers with truncation toward zero. Compared against `utilizationOf`,
the formula embedded from the source. -/
def specClampUtilization (busy total : Int) : Nat :=
  if 0 < total then (max 0 (min 100 ((busy * 100).tdiv total))).toNat else 0

/-- A channel that overwrites `power_mw` in `parse_delta`: group
`"Energy Model"`, name containing `"GPU"`, positive delta value. -/
def energyPos (c : Channel) : Bool :=
  c.group == "Energy Model" && strContains c.name "GPU" && decide (0 < c.value)

/-- The resolved display names of the current GPU list. -/
def gpuNames (st : GpuState) : List String := st.gpus.map GpuInfo.name

-- ─── Concrete inputs used by witnesses and counterexamples ──────────────

/-- An NVML device whose every per-field query succeeded. -/
def wNvmlDevice : NvmlDevice :=
  { name := some "GPU A", temperature := some 40, utilization := some 10,
    memory := some (1024, 4096), fan_speed := some 30,
    power_usage := some 5000, power_limit := some 20000 }

/-- A plain scraped card0 entry with a readable utilization file. -/
def wEntry : DrmEntry :=
  { name_str := "card0", hasDevice := true, pci_slot := none,
    gpu_busy_percent := some 7, mem_info_vram_used := some 11,
    mem_info_vram_total := some 22, temp1_input := some 45000,
    power1_average := none }

/-- A card0 entry whose `gpu_busy_percent` file holds the over-range
value 500. -/
def overEntry : DrmEntry :=
  { name_str := "card0", hasDevice := true, pci_slot := none,
    gpu_busy_percent := some 500, mem_info_vram_used := none,
    mem_info_vram_total := none, temp1_input := none,
    power1_average := none }

/-- A full tick input on the sysfs path whose only device reports the
over-range utilization 500. -/
def overInput : TickInput :=
  { global_cpu := 0, per_cpu := [], mem_pct := 0, rx_kb := 0, tx_kb := 0,
    nvmlEnum := none, platform := .linux true [] [overEntry] }

/-- A card0 entry whose hwmon temperature file reads 45000 millidegrees. -/
def milliTempEntry : DrmEntry :=
  { name_str := "card0", hasDevice := true, pci_slot := none,
    gpu_busy_percent := none, mem_info_vram_used := none,
    mem_info_vram_total := none, temp1_input := some 45000,
    power1_average := none }

-- ─── Lemmas on the parse_delta loop ─────────────────────────────────────

theorem stepActivity_power (acc : DeltaAcc) (c : Channel) :
    (stepActivity acc c).power_mw = acc.power_mw := by
  unfold stepActivity; split <;> rfl

theorem stepFreq_power (acc : DeltaAcc) (c : Channel) :
    (stepFreq acc c).power_mw = acc.power_mw := by
  unfold stepFreq; split_ifs <;> rfl

theorem stepName_power (acc : DeltaAcc) (c : Channel) :
    (stepName acc c).power_mw = acc.power_mw := by
  unfold stepName; split <;> rfl

theorem stepPower_power (acc : DeltaAcc) (c : Channel) :
    (stepPower acc c).power_mw =
      if energyPos c then some (toU32 c.value) else acc.power_mw := by
  unfold stepPower energyPos
  by_cases h1 : (c.group == "Energy Model" && strContains c.name "GPU") = true <;>
    by_cases h2 : 0 < c.value <;> simp [h1, h2]

theorem stepChannel_power (acc : DeltaAcc) (c : Channel) :
    (stepChannel acc c).power_mw =
      if energyPos c then some (toU32 c.value) else acc.power_mw := by
  simp [stepChannel, stepName_power, stepPower_power, stepFreq_power, stepActivity_power]

theorem stepActivity_total (acc : DeltaAcc) (c : Channel) :
    (stepActivity acc c).gpu_total =
      acc.gpu_total + (if isActivity c then c.value else 0) := by
  unfold stepActivity isActivity; split_ifs <;> simp_all

theorem stepActivity_busy (acc : DeltaAcc) (c : Channel) :
    (stepActivity acc c).gpu_busy =
      acc.gpu_busy + (if isActivity c && busyHeuristic c.name then c.value else 0) := by
  unfold stepActivity isActivity
  by_cases h1 : (c.group == "GPU" && c.subgroup == "GPU Activity") = true <;>
    by_cases h2 : busyHeuristic c.name = true <;> simp [h1, h2]

theorem stepFreq_busy_total (acc : DeltaAcc) (c : Channel) :
    (stepFreq acc c).gpu_busy = acc.gpu_busy ∧
    (stepFreq acc c).gpu_total = acc.gpu_total := by
  unfold stepFreq; split_ifs <;> simp

theorem stepPower_busy_total (acc : DeltaAcc) (c : Channel) :
    (stepPower acc c).gpu_busy = acc.gpu_busy ∧
    (stepPower acc c).gpu_total = acc.gpu_total := by
  unfold stepPower; split_ifs <;> simp

theorem stepName_busy_total (acc : DeltaAcc) (c : Channel) :
    (stepName acc c).gpu_busy = acc.gpu_busy ∧
    (stepName acc c).gpu_total = acc.gpu_total := by
  unfold stepName; split <;> simp

theorem stepChannel_total (acc : DeltaAcc) (c : Channel) :
    (stepChannel acc c).gpu_total =
      acc.gpu_total + (if isActivity c then c.value else 0) := by
  simp [stepChannel, (stepName_busy_total _ _).2, (stepPower_busy_total _ _).2,
    (stepFreq_busy_total _ _).2, stepActivity_total]

theorem stepChannel_busy (acc : DeltaAcc) (c : Channel) :
    (stepChannel acc c).gpu_busy =
      acc.gpu_busy + (if isActivity c && busyHeuristic c.name then c.value else 0) := by
  simp [stepChannel, (stepName_busy_total _ _).1, (stepPower_busy_total _ _).1,
    (stepFreq_busy_total _ _).1, stepActivity_busy]

theorem foldl_stepChannel_total (chans : List Channel) :
    ∀ acc : DeltaAcc,
      (chans.foldl stepChannel acc).gpu_total = acc.gpu_total + activityTotal chans := by
  induction chans with
  | nil => intro acc; simp [activityTotal]
  | cons c cs ih =>
    intro acc
    rw [List.foldl_cons, ih, stepChannel_total]
    unfold activityTotal
    by_cases h : isActivity c = true <;> simp [h, List.filter_cons] <;> ring

theorem foldl_stepChannel_busy (chans : List Channel) :
    ∀ acc : DeltaAcc,
      (chans.foldl stepChannel acc).gpu_busy = acc.gpu_busy + activityBusy chans := by
  induction chans with
  | nil => intro acc; simp [activityBusy]
  | cons c cs ih =>
    intro acc
    rw [List.foldl_cons, ih, stepChannel_busy]
    unfold activityBusy
    by_cases h : (isActivity c && busyHeuristic c.name) = true <;>
      simp [h, List.filter_cons] <;> ring

theorem foldl_stepChannel_power (chans : List Channel) :
    ∀ acc : DeltaAcc,
      (chans.foldl stepChannel acc).power_mw =
        (chans.reverse.find? energyPos).elim acc.power_mw (fun c => some (toU32 c.value)) := by
  induction chans with
  | nil => intro acc; simp
  | cons c cs ih =>
    intro acc
    rw [List.foldl_cons, ih, List.reverse_cons, List.find?_append]
    cases h : cs.reverse.find? energyPos with
    | some c' => simp [h]
    | none =>
      by_cases hc : energyPos c = true <;>
        simp [h, hc, stepChannel_power, List.find?, Option.elim]

theorem utilizationOf_eq_spec (busy total : Int) :
    utilizationOf busy total = specClampUtilization busy total := by
  unfold utilizationOf specClampUtilization
  by_cases h : 0 < total
  · simp only [h, if_true]
    generalize (busy * 100).tdiv total = t
    simp only [min_def, max_def]
    split_ifs <;> omega
  · simp [h]

-- ─── Claim theorems: delta backend and temperature ──────────────────────

/-- C2: every group="GPU", subgroup="GPU Activity" channel's delta value is
added to `gpu_total`, and additionally to `gpu_busy` when the busy/active
heuristic matches (such channels contribute to both accumulators); the
resulting utilization equals `clamp(busy/total*100, 0, 100)` for
`total > 0` and 0 for `total = 0`; in particular busy=30/total=120 gives
25, and total=0 gives 0 with no division by zero. -/
theorem deltaUtilization (chans : List Channel) :
    (chans.foldl stepChannel initAcc).gpu_total = activityTotal chans ∧
    (chans.foldl stepChannel initAcc).gpu_busy = activityBusy chans ∧
    (parseDeltaList chans).utilization =
      specClampUtilization (activityBusy chans) (activityTotal chans) ∧
    (parseDeltaList
        [⟨"GPU", "GPU Activity", "GPU Busy", 30⟩,
         ⟨"GPU", "GPU Activity", "GPU Idle", 90⟩]).utilization = 25 ∧
    (parseDeltaList [⟨"GPU", "GPU Activity", "GPU Busy", 0⟩]).utilization = 0 := by
  refine ⟨?_, ?_, ?_, by decide, by decide⟩
  · rw [foldl_stepChannel_total]; simp [initAcc]
  · rw [foldl_stepChannel_busy]; simp [initAcc]
  · show utilizationOf _ _ = _
    rw [utilizationOf_eq_spec, foldl_stepChannel_total, foldl_stepChannel_busy]
    simp [initAcc]

/-- C1 counterexample: on the sysfs scrape path, a `gpu_busy_percent` file
holding the over-range value 500 produces a device entry whose utilization
is 500, outside [0,100]: the parsed value is stored unclamped. -/
theorem utilizationRange_cex :
    ∃ g ∈ (update_stats overInput (App.new 0)).gpu.gpus, 100 < g.utilization := by
  refine ⟨scrapeDevice [] overEntry, ?_, by decide⟩
  decide

/-- C1 amended: the delta-sampling backend's utilization is always in
[0,100] regardless of raw counter values; the sysfs scrape and the NVML
counter backend store the parsed/reported raw value unchanged, so their
entries lie in [0,100] only when the raw value does. -/
theorem utilizationRange_amended :
    (∀ d : Option (List Channel), (parse_delta d).utilization ≤ 100) ∧
    (∀ (gpu_names : List (String × String)) (e : DrmEntry),
      (scrapeDevice gpu_names e).utilization = e.gpu_busy_percent.getD 0) ∧
    (∀ d : NvmlDevice, (nvmlDeviceToGpu d).utilization = d.utilization.getD 0) := by
  refine ⟨?_, fun _ _ => rfl, fun _ => rfl⟩
  intro d
  cases d with
  | none => simp [parse_delta]
  | some chans =>
    show utilizationOf _ _ ≤ 100
    exact Nat.min_le_right _ _

/-- C3: the first `sample()` call after a fresh subscription stores the new
snapshot as baseline and yields no reading; the second call, when the delta
between the two absolute snapshots succeeds, yields a computed reading
(temperature filled in by the caller); and every call whose new snapshot is
non-null replaces the stored baseline, whatever the delta result. -/
theorem sampleBaseline {σ : Type}
    (createDelta : σ → σ → Option (Option (List Channel))) (temp : Nat)
    (prev cur c0 : σ) (st0 : Option σ) (dd : Option (List Channel))
    (h : createDelta prev cur = some dd) :
    sampleStep createDelta temp none (some c0) = (some c0, none) ∧
    (sampleStep createDelta temp (some prev) (some cur)).2 =
      some { parse_delta dd with temperature := temp } ∧
    (sampleStep createDelta temp st0 (some c0)).1 = some c0 := by
  refine ⟨rfl, ?_, ?_⟩
  · simp [sampleStep, h]
  · cases st0 <;> rfl

/-- Witness for C3 at concrete snapshots 1, 2 with an always-successful
delta returning an absent channel array. -/
theorem sampleBaseline_witness :
    sampleStep (fun _ _ : Nat => some (none : Option (List Channel))) 7 none (some 3) =
      (some 3, none) ∧
    (sampleStep (fun _ _ : Nat => some (none : Option (List Channel))) 7
        (some 1) (some 2)).2 = some { parse_delta none with temperature := 7 } ∧
    (sampleStep (fun _ _ : Nat => some (none : Option (List Channel))) 7
        (some 5) (some 3)).1 = some 3 :=
  sampleBaseline (fun _ _ => some none) 7 1 2 3 (some 5) none rfl

/-- C6 counterexample: a raw IOKit temperature reading of 45000 is divided
by 100 (heuristic `>1000`), giving 450, which is outside the plausible
range (0,150) and therefore rejected: the result is unknown (0), not 45°C
as the claim states. -/
theorem tempHeuristic_cex :
    read_gpu_temperature [some 45000] = none ∧
    (read_gpu_temperature [some 45000]).getD 0 ≠ 45 := by decide

/-- C6 amended: under the IOKit `>1000 ⇒ ÷100` heuristic, raw 45 ⇒ 45°C and
raw 4500 (centi-scale) ⇒ 45°C, but raw 45000 ⇒ 450 is outside (0,150) and
rejected ⇒ 0 (unknown); the sysfs path divides by 1000 unconditionally, so
raw 45000 (milli-scale) ⇒ 45°C there. -/
theorem tempHeuristic_amended :
    read_gpu_temperature [some 45] = some 45 ∧
    read_gpu_temperature [some 4500] = some 45 ∧
    read_gpu_temperature [some 45000] = none ∧
    (scrapeDevice [] milliTempEntry).temperature = 45 := by decide

/-- C7 counterexample: with two positive "Energy Model" GPU channels of
values 5 then 7, `parse_delta` reports power 7 — the last positive value
overwrites the first, so "first positive value wins" is false. -/
theorem powerFirstWins_cex :
    (parseDeltaList
        [⟨"Energy Model", "", "GPU Energy A", 5⟩,
         ⟨"Energy Model", "", "GPU Energy B", 7⟩]).power_mw = some 7 ∧
    (parseDeltaList
        [⟨"Energy Model", "", "GPU Energy A", 5⟩,
         ⟨"Energy Model", "", "GPU Energy B", 7⟩]).power_mw ≠ some 5 := by decide

/-- C7 amended: the reported power is the value of the last "Energy Model"
channel whose name contains "GPU" and whose delta value is positive (low
32 bits of the value); `none` when no such channel exists. -/
theorem powerLastWins (chans : List Channel) :
    (parseDeltaList chans).power_mw =
      (chans.reverse.find? energyPos).map (fun c => toU32 c.value) := by
  show (chans.foldl stepChannel initAcc).power_mw = _
  rw [foldl_stepChannel_power]
  cases h : chans.reverse.find? energyPos <;> simp [h, initAcc, Option.elim]

-- ─── Lemmas on history buffers ──────────────────────────────────────────

theorem pushHist_length (b : List ℚ) (v : ℚ) (h : b.length = 60) :
    (pushHist b v).length = 60 := by
  simp [pushHist]; omega

theorem histUpdate_length :
    ∀ (i : Nat) (h : List (List ℚ)) (v : ℚ),
      (∀ b ∈ h, b.length = 60) → ∀ b ∈ histUpdate h i v, b.length = 60 := by
  intro i
  induction i with
  | zero =>
    intro h v hh b hb
    cases h with
    | nil =>
      simp [histUpdate] at hb
      subst hb
      exact pushHist_length _ _ (by simp)
    | cons x xs =>
      simp [histUpdate] at hb
      rcases hb with rfl | hb
      · exact pushHist_length _ _ (hh x (by simp))
      · exact hh b (by simp [hb])
  | succ i ih =>
    intro h v hh b hb
    cases h with
    | nil =>
      simp [histUpdate] at hb
      rcases hb with rfl | hb
      · simp
      · exact ih [] v (by simp) b hb
    | cons x xs =>
      simp [histUpdate] at hb
      rcases hb with rfl | hb
      · exact hh b (by simp)
      · exact ih xs v (fun c hc => hh c (by simp [hc])) b hb

theorem updateCpuHists_length :
    ∀ (bs : List (List ℚ)) (vs : List ℚ),
      (∀ b ∈ bs, b.length = 60) → ∀ b ∈ updateCpuHists bs vs, b.length = 60 := by
  intro bs
  induction bs with
  | nil => intro vs _ b hb; simp [updateCpuHists] at hb
  | cons x xs ih =>
    intro vs hh b hb
    cases vs with
    | nil => exact hh b hb
    | cons v vs =>
      simp [updateCpuHists] at hb
      rcases hb with rfl | hb
      · exact pushHist_length _ _ (hh x (by simp))
      · exact ih vs (fun c hc => hh c (by simp [hc])) b hb

theorem nvmlLoop_hist :
    ∀ (devs : List (Option NvmlDevice)) (i : Nat) (st : GpuState),
      (∀ b ∈ st.hist, b.length = 60) →
      ∀ b ∈ (nvmlLoop devs i st).hist, b.length = 60 := by
  intro devs
  induction devs with
  | nil => intro i st hh; exact hh
  | cons d rest ih =>
    intro i st hh
    cases d with
    | none => exact ih (i + 1) st hh
    | some d => exact ih (i + 1) _ (histUpdate_length i st.hist _ hh)

theorem linuxStep_hist (gpu_names : List (String × String)) (st : GpuState)
    (e : DrmEntry) (hh : ∀ b ∈ st.hist, b.length = 60) :
    ∀ b ∈ (linuxStep gpu_names st e).hist, b.length = 60 := by
  unfold linuxStep
  dsimp only
  split_ifs <;> first
    | exact hh
    | exact histUpdate_length _ st.hist _ hh

theorem linuxFold_hist (n : List (String × String)) :
    ∀ (entries : List DrmEntry) (st : GpuState),
      (∀ b ∈ st.hist, b.length = 60) →
      ∀ b ∈ (entries.foldl (linuxStep n) st).hist, b.length = 60 := by
  intro entries
  induction entries with
  | nil => intro st hh; exact hh
  | cons e es ih => intro st hh; exact ih _ (linuxStep_hist n st e hh)

theorem detect_platform_hist (p : PlatformInput) (st : GpuState)
    (hh : ∀ b ∈ st.hist, b.length = 60) :
    ∀ b ∈ (detect_platform_gpu p st).hist, b.length = 60 := by
  cases p with
  | linux d n entries =>
    show ∀ b ∈ (detect_linux_gpu d n entries st).hist, _
    unfold detect_linux_gpu
    split
    · exact linuxFold_hist n entries st hh
    · exact hh
  | macos m pn =>
    show ∀ b ∈ (detect_macos_gpu m pn st).hist, _
    cases m with
    | some m =>
      simp only [detect_macos_gpu]
      exact histUpdate_length 0 st.hist _ hh
    | none =>
      simp only [detect_macos_gpu]
      split <;> exact hh
  | windows => exact hh

theorem update_gpu_hist (nvmlEnum : Option (List (Option NvmlDevice)))
    (p : PlatformInput) (st : GpuState)
    (hh : ∀ b ∈ st.hist, b.length = 60) :
    ∀ b ∈ (update_gpu nvmlEnum p st).1.hist, b.length = 60 := by
  cases nvmlEnum with
  | none => exact detect_platform_hist p st hh
  | some devs =>
    have h1 : ∀ b ∈ (nvmlTick devs st).hist, b.length = 60 :=
      nvmlLoop_hist devs 0 _ hh
    show ∀ b ∈ (if (nvmlTick devs st).gpus.isEmpty then _ else _ : GpuState × Bool).1.hist, _
    split
    · exact detect_platform_hist p _ h1
    · exact h1

theorem update_stats_buffersOk (inp : TickInput) (st : AppState)
    (h : buffersOk st) : buffersOk (update_stats inp st) := by
  obtain ⟨h1, h2, h3, h4, h5, h6⟩ := h
  exact ⟨updateCpuHists_length _ _ h1,
    pushHist_length _ _ h2, pushHist_length _ _ h3,
    pushHist_length _ _ h4, pushHist_length _ _ h5,
    update_gpu_hist _ _ _ h6⟩

theorem buffersOk_new (n : Nat) : buffersOk (App.new n) := by
  refine ⟨?_, by simp [App.new], by simp [App.new], by simp [App.new],
    by simp [App.new], by simp [App.new]⟩
  intro b hb
  simp [App.new] at hb
  simp [hb]

/-- C5: for any sequence of ticks, every history buffer — per-CPU-core,
global CPU, memory, network rx/tx, and per-GPU utilization — has length
exactly 60 at all times: buffers are created pre-filled with 0.0 and every
update evicts the oldest element and appends the newest. -/
theorem historyLengthInvariant (n : Nat) (inputs : List TickInput) :
    buffersOk (App.new n) ∧ buffersOk (runTicks inputs (App.new n)) := by
  refine ⟨buffersOk_new n, ?_⟩
  have : ∀ (l : List TickInput) (st : AppState), buffersOk st → buffersOk (runTicks l st) := by
    intro l
    induction l with
    | nil => intro st h; exact h
    | cons i is ih => intro st h; exact ih _ (update_stats_buffersOk i st h)
  exact this inputs _ (buffersOk_new n)

-- ─── Lemmas on backend selection and the sysfs scrape ───────────────────

theorem scrapeDevice_name (n : List (String × String)) (e : DrmEntry) :
    (scrapeDevice n e).name = resolveName n e := rfl

theorem linuxStep_not_ok (n : List (String × String)) (st : GpuState)
    (e : DrmEntry) (h : entryOk e = false) : linuxStep n st e = st := by
  unfold linuxStep
  rw [if_neg (by simp [h])]

theorem linuxStep_name_mono (n : List (String × String)) (st : GpuState)
    (e : DrmEntry) (s : String) (h : s ∈ gpuNames st) :
    s ∈ gpuNames (linuxStep n st e) := by
  unfold linuxStep
  dsimp only
  split_ifs with h1 h2
  · exact h
  · simp only [gpuNames, List.map_append] at *
    exact List.mem_append_left _ h
  · exact h

theorem linuxFold_name_mono (n : List (String × String)) :
    ∀ (entries : List DrmEntry) (st : GpuState) (s : String),
      s ∈ gpuNames st → s ∈ gpuNames (entries.foldl (linuxStep n) st) := by
  intro entries
  induction entries with
  | nil => intro st s h; exact h
  | cons e es ih => intro st s h; exact ih _ s (linuxStep_name_mono n st e s h)

theorem linuxStep_resolve_mem (n : List (String × String)) (st : GpuState)
    (e : DrmEntry) (he : entryOk e = true) :
    resolveName n e ∈ gpuNames (linuxStep n st e) := by
  unfold linuxStep
  dsimp only
  rw [if_pos he]
  by_cases h2 : (st.gpus.any fun x => x.name == (scrapeDevice n e).name) = true
  · rw [if_pos h2]
    simp only [List.any_eq_true, beq_iff_eq, scrapeDevice_name] at h2
    obtain ⟨x, hx, hxx⟩ := h2
    exact hxx ▸ List.mem_map_of_mem GpuInfo.name hx
  · rw [if_neg h2]
    simp only [gpuNames, List.map_append]
    exact List.mem_append_right _ (by simp [scrapeDevice_name])

theorem linuxFold_resolve_all (n : List (String × String)) :
    ∀ (entries : List DrmEntry) (st : GpuState) (e : DrmEntry),
      e ∈ entries → entryOk e = true →
      resolveName n e ∈ gpuNames (entries.foldl (linuxStep n) st) := by
  intro entries
  induction entries with
  | nil => intro st e he; simp at he
  | cons a as ih =>
    intro st e he hok
    rcases List.mem_cons.1 he with rfl | he
    · exact linuxFold_name_mono n as _ _ (linuxStep_resolve_mem n st e hok)
    · exact ih _ e he hok

theorem linuxStep_of_mem (n : List (String × String)) (st : GpuState)
    (e : DrmEntry) (h : resolveName n e ∈ gpuNames st) :
    linuxStep n st e = st := by
  unfold linuxStep
  dsimp only
  split_ifs with h1 h2
  · rfl
  · exfalso
    apply h2
    simp only [gpuNames, List.mem_map] at h
    obtain ⟨x, hx, hxn⟩ := h
    simp only [List.any_eq_true, beq_iff_eq, scrapeDevice_name]
    exact ⟨x, hx, hxn⟩
  · rfl

theorem linuxFold_fixed (n : List (String × String)) :
    ∀ (entries : List DrmEntry) (st : GpuState),
      (∀ e ∈ entries, entryOk e = true → resolveName n e ∈ gpuNames st) →
      entries.foldl (linuxStep n) st = st := by
  intro entries
  induction entries with
  | nil => intro st _; rfl
  | cons e es ih =>
    intro st h
    rw [List.foldl_cons]
    have h1 : linuxStep n st e = st := by
      cases hk : entryOk e with
      | true => exact linuxStep_of_mem n st e (h e (by simp) hk)
      | false => exact linuxStep_not_ok n st e hk
    rw [h1]
    exact ih st (fun a ha hk => h a (by simp [ha]) hk)

theorem linuxStep_nodup (n : List (String × String)) (st : GpuState)
    (e : DrmEntry) (h : (gpuNames st).Nodup) :
    (gpuNames (linuxStep n st e)).Nodup := by
  unfold linuxStep
  dsimp only
  split_ifs with h1 h2
  · exact h
  · simp only [gpuNames, List.map_append, List.map_cons, List.map_nil]
    rw [List.nodup_append]
    refine ⟨h, List.nodup_singleton _, ?_⟩
    intro a ha hb
    simp only [List.mem_singleton] at hb
    subst hb
    apply h2
    simp only [List.mem_map] at ha
    obtain ⟨x, hx, hxa⟩ := ha
    simp only [List.any_eq_true, beq_iff_eq, scrapeDevice_name]
    exact ⟨x, hx, hxa⟩
  · exact h

theorem linuxFold_nodup (n : List (String × String)) :
    ∀ (entries : List DrmEntry) (st : GpuState),
      (gpuNames st).Nodup → (gpuNames (entries.foldl (linuxStep n) st)).Nodup := by
  intro entries
  induction entries with
  | nil => intro st h; exact h
  | cons e es ih => intro st h; exact ih _ (linuxStep_nodup n st e h)

theorem macosFallback_of_mem (pn : String) (st : GpuState)
    (h : pn ∈ gpuNames st) : detect_macos_gpu none pn st = st := by
  simp only [gpuNames, List.mem_map] at h
  obtain ⟨x, hx, hxn⟩ := h
  have ha : (st.gpus.any fun g => g.name == pn) = true := by
    simp only [List.any_eq_true, beq_iff_eq]
    exact ⟨x, hx, hxn⟩
  simp [detect_macos_gpu, ha]

theorem macosFallback_mem (pn : String) (st : GpuState) :
    pn ∈ gpuNames (detect_macos_gpu none pn st) := by
  by_cases ha : (st.gpus.any fun g => g.name == pn) = true
  · simp only [detect_macos_gpu, ha, if_true]
    simp only [List.any_eq_true, beq_iff_eq] at ha
    obtain ⟨x, hx, hxn⟩ := ha
    exact hxn ▸ List.mem_map_of_mem GpuInfo.name hx
  · simp only [detect_macos_gpu, ha, if_false]
    simp [gpuNames, List.map_append]

theorem macosFallback_nodup (pn : String) (st : GpuState)
    (h : (gpuNames st).Nodup) : (gpuNames (detect_macos_gpu none pn st)).Nodup := by
  simp only [detect_macos_gpu]
  split_ifs with ha
  · exact h
  · simp only [gpuNames, List.map_append, List.map_cons, List.map_nil]
    rw [List.nodup_append]
    refine ⟨h, List.nodup_singleton _, ?_⟩
    intro a haa hb
    simp only [List.mem_singleton] at hb
    subst hb
    apply ha
    simp only [List.mem_map] at haa
    obtain ⟨x, hx, hxa⟩ := haa
    simp only [List.any_eq_true, beq_iff_eq]
    exact ⟨x, hx, hxa⟩

-- ─── Claim theorems: backend selection, dedup, field defaults ───────────

/-- C4: when the NVML handle exists, `device_count` succeeds and the NVML
loop produces at least one device entry, that list is the tick's GPU list
and the platform fallback (delta sampler / sysfs scrape) is not invoked. -/
theorem counterBackendExclusive (devs : List (Option NvmlDevice))
    (p : PlatformInput) (st : GpuState)
    (h : (nvmlTick devs st).gpus ≠ []) :
    update_gpu (some devs) p st = (nvmlTick devs st, false) := by
  have hb : (nvmlTick devs st).gpus.isEmpty = false := by
    cases hg : (nvmlTick devs st).gpus with
    | nil => exact absurd hg h
    | cons a l => simp
  simp [update_gpu, hb]

/-- Witness for C4: one successfully queried NVML device; the result is the
NVML list and the fallback flag is false. -/
theorem counterBackendExclusive_witness :
    (nvmlTick [some wNvmlDevice] ⟨[], []⟩).gpus ≠ [] ∧
    update_gpu (some [some wNvmlDevice]) .windows ⟨[], []⟩ =
      (nvmlTick [some wNvmlDevice] ⟨[], []⟩, false) :=
  ⟨by decide, counterBackendExclusive [some wNvmlDevice] .windows ⟨[], []⟩ (by decide)⟩

/-- C8: starting from a GPU list with pairwise-distinct resolved names, a
discovery pass keeps the names pairwise distinct and a second identical
pass changes nothing, on both appending discovery paths: the sysfs scrape
(`detect_linux_gpu`) and the macOS name-only fallback branch of
`detect_macos_gpu`. A device whose resolved name is already present is not
appended, so identical passes yield one entry, not two. -/
theorem dedupByName (n : List (String × String)) (entries : List DrmEntry)
    (pn : String) (st : GpuState) (h : (gpuNames st).Nodup) :
    (gpuNames (detect_linux_gpu true n entries st)).Nodup ∧
    detect_linux_gpu true n entries (detect_linux_gpu true n entries st) =
      detect_linux_gpu true n entries st ∧
    (gpuNames (detect_macos_gpu none pn st)).Nodup ∧
    detect_macos_gpu none pn (detect_macos_gpu none pn st) =
      detect_macos_gpu none pn st := by
  have hd : ∀ s : GpuState,
      detect_linux_gpu true n entries s = entries.foldl (linuxStep n) s := by
    intro s; simp [detect_linux_gpu]
  refine ⟨?_, ?_, macosFallback_nodup pn st h,
    macosFallback_of_mem pn _ (macosFallback_mem pn st)⟩
  · rw [hd]; exact linuxFold_nodup n entries st h
  · rw [hd, hd]
    exact linuxFold_fixed n entries _
      (fun e he hok => linuxFold_resolve_all n entries st e he hok)

/-- Witness for C8: one scraped card0 entry on the sysfs path and the
profiler name "Apple M1" on the macOS fallback path, starting from an
empty list. -/
theorem dedupByName_witness :
    (gpuNames (detect_linux_gpu true [] [wEntry] ⟨[], []⟩)).Nodup ∧
    detect_linux_gpu true [] [wEntry] (detect_linux_gpu true [] [wEntry] ⟨[], []⟩) =
      detect_linux_gpu true [] [wEntry] ⟨[], []⟩ ∧
    (gpuNames (detect_macos_gpu none "Apple M1" ⟨[], []⟩)).Nodup ∧
    detect_macos_gpu none "Apple M1" (detect_macos_gpu none "Apple M1" ⟨[], []⟩) =
      detect_macos_gpu none "Apple M1" ⟨[], []⟩ :=
  dedupByName [] [wEntry] "Apple M1" ⟨[], []⟩ (by decide)

/-- C9: per-field read failures never drop a device: a scraped device whose
`mem_info_vram_used` file is missing or unparsable yields memory_used = 0
with every other field exactly as independently read; an NVML device whose
memory query fails yields 0/0 likewise; and a successfully indexed NVML
device is always reported. -/
theorem fieldFailureDefaults (n : List (String × String)) (e : DrmEntry)
    (d : NvmlDevice) (st : GpuState) :
    scrapeDevice n { e with mem_info_vram_used := none } =
      { scrapeDevice n e with memory_used := 0 } ∧
    nvmlDeviceToGpu { d with memory := none } =
      { nvmlDeviceToGpu d with memory_used := 0, memory_total := 0 } ∧
    (nvmlTick [some d] st).gpus = [nvmlDeviceToGpu d] :=
  ⟨rfl, rfl, rfl⟩

/-- C10 (implicit): on the sysfs fallback path (NVML unavailable) the GPU
list is not cleared at the start of the tick, and a scraped device whose
resolved name is already present leaves the state — that entry's reading
fields and its utilization history buffer — completely unchanged: the
fresh values are discarded. -/
theorem staleSysfsEntry (n : List (String × String)) (st st2 : GpuState)
    (e : DrmEntry) (p : PlatformInput)
    (_hok : entryOk e = true)
    (hmem : resolveName n e ∈ gpuNames st) :
    linuxStep n st e = st ∧
    update_gpu none p st2 = (detect_platform_gpu p st2, true) :=
  ⟨linuxStep_of_mem n st e hmem, rfl⟩

/-- Witness for C10: re-scraping card0 when its resolved name is already in
the list leaves the state unchanged. -/
theorem staleSysfsEntry_witness :
    linuxStep [] ⟨[scrapeDevice [] wEntry], []⟩ wEntry =
      ⟨[scrapeDevice [] wEntry], []⟩ ∧
    update_gpu none .windows ⟨[], []⟩ =
      (detect_platform_gpu .windows ⟨[], []⟩, true) :=
  staleSysfsEntry [] ⟨[scrapeDevice [] wEntry], []⟩ ⟨[], []⟩ wEntry .windows
    (by decide) (by decide)
